import Mathlib

/-
  Verification development for `IPython/frontend/html/notebook/notebookapp.py`
  (the tornado based IPython notebook server).

  The file shallowly embeds the routing table of `NotebookWebApplication`,
  the network-security logic of `IPythonNotebookApp.initialize`, the `ip`
  trait change handler, and `parse_command_line`, and proves properties of
  the embedding.  Request paths are modelled as lists of characters; each
  tornado route pattern is an anchored regular expression (tornado appends
  a trailing anchor to every pattern and matches from the start of the
  path), embedded below as a decidable matcher on the whole path.
-/

namespace NotebookApp

/-- Embeds the regex character class `\w` as compiled by Python 2 `re`
without the unicode flag: `[a-zA-Z0-9_]`. -/
def wordChar (c : Char) : Bool :=
  ('a' ≤ c && c ≤ 'z') ||
  ('A' ≤ c && c ≤ 'Z') ||
  ('0' ≤ c && c ≤ '9') ||
  c == '_'

/-- Splits a character list at every occurrence of `sep`; the separators are
dropped and the (possibly empty) chunks between them are returned.  Used to
decompose a path into `/`-separated segments and a kernel id into
`-`-separated word runs. -/
def splitOnChar (sep : Char) : List Char → List (List Char)
  | [] => [[]]
  | c :: cs =>
    if c = sep then [] :: splitOnChar sep cs
    else
      match splitOnChar sep cs with
      | [] => [[c]]
      | p :: ps => (c :: p) :: ps

theorem splitOnChar_ne_nil (sep : Char) (cs : List Char) :
    splitOnChar sep cs ≠ [] := by
  induction cs with
  | nil => simp [splitOnChar]
  | cons c cs ih =>
    simp only [splitOnChar]
    split
    · simp
    · cases h : splitOnChar sep cs with
      | nil => exact absurd h ih
      | cons p ps => simp

/-- A chunk containing no separator splits into itself alone. -/
theorem splitOnChar_of_no_sep (sep : Char) (cs : List Char)
    (h : ∀ c ∈ cs, c ≠ sep) : splitOnChar sep cs = [cs] := by
  induction cs with
  | nil => rfl
  | cons c cs ih =>
    have hc : ¬ c = sep := h c (by simp)
    have hrest := ih (fun x hx => h x (by simp [hx]))
    simp only [splitOnChar, hc, if_false, hrest]

/-- Peeling one separator-free chunk off the front of a split. -/
theorem splitOnChar_append (sep : Char) (xs ys : List Char)
    (h : ∀ c ∈ xs, c ≠ sep) :
    splitOnChar sep (xs ++ sep :: ys) = xs :: splitOnChar sep ys := by
  induction xs with
  | nil =>
    simp [List.nil_append, splitOnChar]
  | cons x xs ih =>
    have hx : ¬ x = sep := h x (by simp)
    have hrest := ih (fun c hc => h c (by simp [hc]))
    simp only [List.cons_append, splitOnChar, hx, if_false]
    rw [show xs.append (sep :: ys) = xs ++ sep :: ys from rfl, hrest]

/-- Every character of the input is a separator or lands in some chunk. -/
theorem mem_splitOnChar (sep : Char) (cs : List Char) (c : Char)
    (hc : c ∈ cs) : c = sep ∨ ∃ p ∈ splitOnChar sep cs, c ∈ p := by
  induction cs with
  | nil => cases hc
  | cons d ds ih =>
    rcases List.mem_cons.mp hc with hcd | hcmem
    · subst hcd
      by_cases hd : c = sep
      · exact Or.inl hd
      · refine Or.inr ?_
        simp only [splitOnChar, hd, if_false]
        cases h : splitOnChar sep ds with
        | nil => exact absurd h (splitOnChar_ne_nil sep ds)
        | cons p ps => exact ⟨c :: p, by simp⟩
    · rcases ih hcmem with h | ⟨p, hp, hcp⟩
      · exact Or.inl h
      · refine Or.inr ?_
        simp only [splitOnChar]
        split
        · exact ⟨p, by simp [hp], hcp⟩
        · cases h : splitOnChar sep ds with
          | nil => exact absurd h (splitOnChar_ne_nil sep ds)
          | cons q qs =>
            rw [h] at hp
            rcases List.mem_cons.mp hp with hpq | hpqs
            · subst hpq
              exact ⟨d :: p, by simp, by simp [hcp]⟩
            · exact ⟨p, by simp [hpqs], hcp⟩

/-- One nonempty run of `\w` characters: embeds the regex `\w+` matched
against a whole chunk. -/
def wordRun (p : List Char) : Bool :=
  !p.isEmpty && p.all wordChar

/-- Embeds `_kernel_id_regex = r"(?P<kernel_id>\w+-\w+-\w+-\w+-\w+)"`
(notebookapp.py line 54) matched against a whole path segment: since `\w`
never matches `-`, the anchored pattern accepts exactly the strings that
split at `-` into five nonempty word runs. -/
def kernel_id_match (cs : List Char) : Bool :=
  (splitOnChar '-' cs).length == 5 &&
  (splitOnChar '-' cs).all wordRun

/-- Embeds `_kernel_action_regex = r"(?P<action>restart|interrupt)"`
(notebookapp.py line 55) matched against a whole path segment. -/
def action_match (cs : List Char) : Bool :=
  cs == "restart".data || cs == "interrupt".data

/-- Embeds `_notebook_id_regex = r"(?P<notebook_id>\w+-\w+-\w+-\w+-\w+)"`
(notebookapp.py line 56); the pattern is identical to the kernel id one. -/
def notebook_id_match (cs : List Char) : Bool :=
  kernel_id_match cs

example : kernel_id_match "0cfff3b2-7656-4b35-8619-ecb6385d9b65".data = true := by decide
example : kernel_id_match "a-b-c-d-e".data = true := by decide
example : kernel_id_match "a-b-c-d".data = false := by decide
example : kernel_id_match "a-b-c-d-e-f".data = false := by decide
example : kernel_id_match "a-b-c-d-".data = false := by decide
example : kernel_id_match "a-b/c-d-e-f".data = false := by decide
example : splitOnChar '/' "/kernels/x".data = [[], "kernels".data, "x".data] := by decide

/-! ## The handler table of `NotebookWebApplication.__init__`

The eleven routes installed at notebookapp.py lines 75-87.  Tornado matches
the request path against each anchored pattern in table order and hands the
request to the first handler whose pattern matches the whole path. -/

/-- The handler classes appearing in the table.  `ZMQStreamHandler` carries
the `stream_name` initialization argument it is registered with. -/
inductive Handler where
  | NBBrowserHandler
  | NewHandler
  | NamedNotebookHandler
  | MainKernelHandler
  | KernelHandler
  | KernelActionHandler
  | ZMQStreamHandler (stream_name : List Char)
  | NotebookRootHandler
  | NotebookHandler
  | RSTHandler
deriving DecidableEq, Repr

/-- Route pattern `r"/"` (line 76). -/
def m_root (p : List Char) : Bool := p == "/".data

/-- Route pattern `r"/new"` (line 77). -/
def m_new (p : List Char) : Bool := p == "/new".data

/-- Route pattern `r"/%s" % _notebook_id_regex` (line 78): a `/` followed by
one notebook-id segment.  Since neither `\w` nor `-` matches `/`, the
anchored pattern accepts exactly the paths whose `/`-segmentation is an
empty lead segment plus one notebook-id segment. -/
def m_named_notebook (p : List Char) : Bool :=
  match splitOnChar '/' p with
  | [[], nb] => notebook_id_match nb
  | _ => false

/-- Route pattern `r"/kernels"` (line 79). -/
def m_main_kernel (p : List Char) : Bool := p == "/kernels".data

/-- Route pattern `r"/kernels/%s" % _kernel_id_regex` (line 80). -/
def m_kernel (p : List Char) : Bool :=
  match splitOnChar '/' p with
  | [[], seg, kid] => seg == "kernels".data && kernel_id_match kid
  | _ => false

/-- Route pattern `r"/kernels/%s/%s" % (_kernel_id_regex, _kernel_action_regex)`
(line 81). -/
def m_kernel_action (p : List Char) : Bool :=
  match splitOnChar '/' p with
  | [[], seg, kid, act] =>
      seg == "kernels".data && kernel_id_match kid && action_match act
  | _ => false

/-- Route pattern `r"/kernels/%s/iopub" % _kernel_id_regex` (line 82). -/
def m_kernel_iopub (p : List Char) : Bool :=
  match splitOnChar '/' p with
  | [[], seg, kid, chan] =>
      seg == "kernels".data && kernel_id_match kid && chan == "iopub".data
  | _ => false

/-- Route pattern `r"/kernels/%s/shell" % _kernel_id_regex` (line 83). -/
def m_kernel_shell (p : List Char) : Bool :=
  match splitOnChar '/' p with
  | [[], seg, kid, chan] =>
      seg == "kernels".data && kernel_id_match kid && chan == "shell".data
  | _ => false

/-- Route pattern `r"/notebooks"` (line 84). -/
def m_notebook_root (p : List Char) : Bool := p == "/notebooks".data

/-- Route pattern `r"/notebooks/%s" % _notebook_id_regex` (line 85). -/
def m_notebook (p : List Char) : Bool :=
  match splitOnChar '/' p with
  | [[], seg, nb] => seg == "notebooks".data && notebook_id_match nb
  | _ => false

/-- Route pattern `r"/rstservice/render"` (line 86). -/
def m_rst (p : List Char) : Bool := p == "/rstservice/render".data

/-- Tornado dispatch over the handler table of notebookapp.py lines 75-87:
the first pattern in table order that matches the whole path wins; `none`
means no route matches (tornado would fall back to its default handler). -/
def dispatch (p : List Char) : Option Handler :=
  if m_root p then some Handler.NBBrowserHandler
  else if m_new p then some Handler.NewHandler
  else if m_named_notebook p then some Handler.NamedNotebookHandler
  else if m_main_kernel p then some Handler.MainKernelHandler
  else if m_kernel p then some Handler.KernelHandler
  else if m_kernel_action p then some Handler.KernelActionHandler
  else if m_kernel_iopub p then some (Handler.ZMQStreamHandler "iopub".data)
  else if m_kernel_shell p then some (Handler.ZMQStreamHandler "shell".data)
  else if m_notebook_root p then some Handler.NotebookRootHandler
  else if m_notebook p then some Handler.NotebookHandler
  else if m_rst p then some Handler.RSTHandler
  else none

example : dispatch "/".data = some Handler.NBBrowserHandler := by decide
example : dispatch "/new".data = some Handler.NewHandler := by decide
example : dispatch "/kernels".data = some Handler.MainKernelHandler := by decide
example : dispatch "/kernels/a-b-c-d-e".data = some Handler.KernelHandler := by decide
example : dispatch "/kernels/a-b-c-d-e/restart".data = some Handler.KernelActionHandler := by decide
example : dispatch "/kernels/a-b-c-d-e/interrupt".data = some Handler.KernelActionHandler := by decide
example : dispatch "/kernels/a-b-c-d-e/iopub".data = some (Handler.ZMQStreamHandler "iopub".data) := by decide
example : dispatch "/kernels/a-b-c-d-e/shell".data = some (Handler.ZMQStreamHandler "shell".data) := by decide
example : dispatch "/kernels/a-b-c-d-e/stop".data = none := by decide
example : dispatch "/notebooks/a-b-c-d-e".data = some Handler.NotebookHandler := by decide
example : dispatch "/rstservice/render".data = some Handler.RSTHandler := by decide

/-! ## UUID-shaped identifiers

The spec describes a KernelIdentity as an "opaque unique identifier
(UUID-shaped)".  To compare the route pattern with that description we also
formalise the spec's words; this definition is written from the spec, not
from the source. -/

/-- A hexadecimal digit `[0-9a-fA-F]`. -/
def hexDigit (c : Char) : Bool :=
  ('0' ≤ c && c ≤ '9') ||
  ('a' ≤ c && c ≤ 'f') ||
  ('A' ≤ c && c ≤ 'F')

/-- Follows the spec's words ("UUID-shaped", "standard UUID string"): five
hyphen-separated groups of hexadecimal digits with group lengths
8-4-4-4-12.  Comparison definition for claim C4 only. -/
def uuidShaped (cs : List Char) : Bool :=
  match splitOnChar '-' cs with
  | [a, b, c, d, e] =>
      a.length == 8 && b.length == 4 && c.length == 4 && d.length == 4 &&
      e.length == 12 && (a ++ b ++ c ++ d ++ e).all hexDigit
  | _ => false

example : uuidShaped "0cfff3b2-7656-4b35-8619-ecb6385d9b65".data = true := by decide
example : uuidShaped "a-b-c-d-e".data = false := by decide

/-! ## IPythonNotebookApp: network configuration and command line -/

/-- `LOCALHOST = '127.0.0.1'` (notebookapp.py line 58). -/
def LOCALHOST : String := "127.0.0.1"

/-- The `ssl_options` dictionary built by `initialize`: a `certfile` entry
and an optional `keyfile` entry. -/
structure SslOptions where
  certfile : String
  keyfile : Option String
deriving DecidableEq, Repr

/-- Embeds the `ssl_options` computation of `IPythonNotebookApp.initialize`
(lines 209-214).  Python string truthiness makes `if self.certfile:` and
`if self.keyfile:` test nonemptiness: with a nonempty `certfile` the dict
holds `certfile` and, only when `keyfile` is also nonempty, `keyfile`;
with an empty `certfile` the options are `None`. -/
def make_ssl_options (certfile keyfile : String) : Option SslOptions :=
  if certfile == "" then none
  else some (SslOptions.mk certfile (if keyfile == "" then none else some keyfile))

/-- Embeds the insecurity-warning condition of `initialize` (lines 216-219):
the critical "highly insecure" message is logged iff
`ssl_options is None and not self.ip`, i.e. iff the options are `None` and
the `ip` trait is the empty string. -/
def insecure_warning (certfile keyfile ip : String) : Bool :=
  (make_ssl_options certfile keyfile).isNone && ip == ""

/-- Embeds `IPythonNotebookApp._ip_changed` (lines 157-158): the handler
receives the freshly assigned value `new` and, when it is `"*"`, overwrites
the trait with the empty string; otherwise it leaves the trait alone. -/
def ip_changed_handler (current_ip new : String) : String :=
  if new == "*" then "" else current_ip

/-- The traitlets assignment protocol for the `ip` trait: an assignment
stores the new value and then fires `_ip_changed`; the handler's own
re-assignment to `""` fires it once more with `new = ""`, which changes
nothing.  The result is the value the trait holds once the assignment
completes. -/
def assign_ip (new : String) : String :=
  ip_changed_handler new new

/-- `notebook_flags = []` (line 108): the frontend-specific flags that would
be scrubbed from the kernel argument list. -/
def notebook_flags : List String := []

/-- A single-quote character, used by the `'%s'` interpolation below. -/
def squote : String := String.singleton (Char.ofNat 39)

/-- `name = 'ipython-notebook'` (line 127). -/
def appname : String := "ipython-notebook"

/-- The argument `parse_command_line` appends:
`"--KernelApp.parent_appname='%s'" % self.name` (line 179). -/
def parent_appname_arg : String :=
  "--KernelApp.parent_appname=" ++ squote ++ appname ++ squote

/-- One iteration of the scrubbing loop of `parse_command_line`
(lines 181-183): drop `a` from the accumulated kernel argument list when it
starts with `-` and its `lstrip('-')` is one of `notebook_flags`;
`list.remove` drops the first occurrence, embedded as `List.erase`. -/
def scrub_step (acc : List String) (a : String) : List String :=
  if a.startsWith "-" &&
      notebook_flags.contains (a.dropWhile (fun c => c == '-'))
  then acc.erase a
  else acc

/-- Embeds `IPythonNotebookApp.parse_command_line` (lines 172-183), returning
the resulting `kernel_argv`: a copy of `argv` with the parent-appname
override appended, then scrubbed by the loop above. -/
def parse_command_line (argv : List String) : List String :=
  argv.foldl scrub_step (argv ++ [parent_appname_arg])

/-! ## RoutingTable resolve (spec section 4.2)

`RoutingKernelManager`, the component realising the spec's RoutingTable, is
not part of the file under verification (notebookapp.py only constructs it
in `init_configurables`, lines 189-193), so its `resolve` operation is
modelled from the spec. -/

/-- State of the routing table and the registry it drives: the
notebook-to-kernel mapping, a supply of fresh kernel identities, and the
number of `KernelRegistry.start` invocations performed so far. -/
structure RoutingState where
  table : List (String × Nat)
  nextId : Nat
  starts : Nat
deriving DecidableEq, Repr

/-- Modelled from the spec: `RoutingTable.resolve(notebookId)` (spec 4.2,
missing from the source file) "returns the current mapping, creating a
kernel via KernelRegistry.start if none exists", with single-flight
semantics obtained from the spec's per-key exclusive section (spec 5 and
9): each invocation runs atomically, so a concurrent execution of several
`resolve` calls on one notebook id is an interleaving of atomic calls. -/
def resolve (nb : String) (s : RoutingState) : Nat × RoutingState :=
  match s.table.lookup nb with
  | some k => (k, s)
  | none =>
      (s.nextId,
       RoutingState.mk ((nb, s.nextId) :: s.table) (s.nextId + 1) (s.starts + 1))

/-- Runs `n` (serialized) invocations of `resolve` on the same notebook id,
collecting the returned kernel identities. -/
def resolveN : Nat → String → RoutingState → List Nat × RoutingState
  | 0, _, s => ([], s)
  | n + 1, nb, s =>
    let r := resolve nb s
    let rs := resolveN n nb r.2
    (r.1 :: rs.1, rs.2)

/-! ## Bridge lifecycle (spec sections 3 and 4.3)

`ZMQStreamHandler`, realising the spec's StreamBridge, is likewise not part
of the file under verification (notebookapp.py only routes to it, lines
81-83), so the bridge/kernel lifecycle is modelled from the spec. -/

/-- The Bridge state machine of spec 4.3:
`Attaching -> Active -> Detached | Stale | Errored`. -/
inductive BridgeState where
  | Attaching
  | Active
  | Detached
  | Stale
  | Errored
deriving DecidableEq, Repr

/-- The non-Active, non-Attaching states are terminal (spec 4.3). -/
def BridgeState.terminal : BridgeState → Bool
  | .Attaching => false
  | .Active => false
  | .Detached => true
  | .Stale => true
  | .Errored => true

/-- A live binding (ClientConnection, KernelIdentity, Channel state); the
channel plays no role in the lifecycle claims and is omitted. -/
structure Bridge where
  conn : Nat
  kernel : Nat
  state : BridgeState
deriving DecidableEq, Repr

/-- The shared lifecycle state: the set of live kernel identities and the
existing bridges. -/
structure SystemState where
  liveKernels : List Nat
  bridges : List Bridge
deriving DecidableEq, Repr

/-- Modelled from the spec: closing a client connection (spec I5, 4.3)
releases that connection's Bridges — they become `Detached` — and touches no
kernel. -/
def close_connection (c : Nat) (s : SystemState) : SystemState :=
  SystemState.mk s.liveKernels
    (s.bridges.map fun b =>
      if b.conn == c then Bridge.mk b.conn b.kernel BridgeState.Detached else b)

/-- Modelled from the spec: stopping a kernel (spec 4.1 `stop`, 4.3
staleness) removes its identity from the live set and transitions every
Bridge bound to that identity to the terminal `Stale` state. -/
def stop_kernel (k : Nat) (s : SystemState) : SystemState :=
  SystemState.mk (s.liveKernels.erase k)
    (s.bridges.map fun b =>
      if b.kernel == k then Bridge.mk b.conn b.kernel BridgeState.Stale else b)

/-- Modelled from the spec: restarting issues a fresh identity `newK` for
the stopped kernel `k` (spec 4.2 `rebind`, 4.5 `restart`); Bridges bound to
the superseded identity become `Stale` and never follow the new one. -/
def restart_kernel (k newK : Nat) (s : SystemState) : SystemState :=
  SystemState.mk (newK :: s.liveKernels.erase k)
    (s.bridges.map fun b =>
      if b.kernel == k then Bridge.mk b.conn b.kernel BridgeState.Stale else b)

/-! ## Theorems -/

/-- Claim C1 counterexample: binding to the specific non-loopback address
192.168.1.1 with no certificate file yields an unencrypted, non-loopback
server, yet `initialize` logs no insecurity warning — the warning condition
tests `not self.ip` (empty string), not non-loopback-ness. -/
theorem insecure_warning_missing_for_specific_ip :
    insecure_warning "" "" "192.168.1.1" = false ∧
    "192.168.1.1" ≠ LOCALHOST ∧ ("" : String) = "" := by
  refine ⟨rfl, ?_, rfl⟩
  decide

/-- Claim C1 (as amended): during `initialize` the critical insecurity
warning is logged iff no certificate file is configured (so the transport is
unencrypted) and the `ip` trait is the empty string, i.e. the server listens
on all interfaces; a configured certificate file, or any nonempty bind
address — loopback or not — suppresses the warning. -/
theorem insecure_warning_iff (certfile keyfile ip : String) :
    insecure_warning certfile keyfile ip = true ↔ certfile = "" ∧ ip = "" := by
  unfold insecure_warning make_ssl_options
  by_cases hc : certfile = "" <;> simp [hc]

/-- Claim C9: the SSL options passed to the HTTP server carry a keyfile
entry exactly when both `certfile` and `keyfile` are nonempty, and an empty
`certfile` forces the options to `None` regardless of `keyfile`, leaving the
server unencrypted. -/
theorem ssl_options_keyfile (certfile keyfile : String) :
    ((make_ssl_options certfile keyfile).bind SslOptions.keyfile
      = if certfile = "" ∨ keyfile = "" then none else some keyfile) ∧
    make_ssl_options "" keyfile = none := by
  refine ⟨?_, rfl⟩
  unfold make_ssl_options
  by_cases hc : certfile = "" <;> by_cases hk : keyfile = "" <;>
    simp [hc, hk, Option.bind]

/-- Claim C10: an assignment to the `ip` trait never leaves the value `"*"`
behind — `_ip_changed` rewrites `"*"` to the empty string before the
assignment completes — so every later consumer of `ip` observes `""` where
`"*"` was assigned. -/
theorem ip_never_star (v : String) :
    assign_ip v ≠ "*" ∧ assign_ip "*" = "" := by
  refine ⟨?_, rfl⟩
  unfold assign_ip ip_changed_handler
  by_cases hv : v = "*" <;> simp [hv]

/-- The scrubbing loop body never changes the accumulator: `notebook_flags`
is empty, so no argument is ever a frontend-specific flag. -/
theorem scrub_step_id (acc : List String) (a : String) : scrub_step acc a = acc := by
  unfold scrub_step notebook_flags
  simp [List.contains]

theorem foldl_scrub_step (l init : List String) :
    l.foldl scrub_step init = init := by
  induction l generalizing init with
  | nil => rfl
  | cons a l ih => rw [List.foldl_cons, scrub_step_id, ih]

/-- Claim C8: after `parse_command_line(argv)` the kernel argument list is
exactly `argv` with the single parent-appname override appended and nothing
removed: `notebook_flags` is empty, so the scrubbing loop is a no-op and
kernels inherit every frontend command-line argument.  (The embedding is
pure, so the input list is unmodified by construction.) -/
theorem parse_command_line_appends_one (argv : List String) :
    parse_command_line argv = argv ++ [parent_appname_arg] := by
  unfold parse_command_line
  exact foldl_scrub_step argv (argv ++ [parent_appname_arg])

theorem resolve_hit (nb : String) (s : RoutingState) (k : Nat)
    (h : s.table.lookup nb = some k) : resolve nb s = (k, s) := by
  unfold resolve
  rw [h]

theorem resolveN_hit (n : Nat) (nb : String) (s : RoutingState) (k : Nat)
    (h : s.table.lookup nb = some k) :
    resolveN n nb s = (List.replicate n k, s) := by
  induction n with
  | zero => rfl
  | succ m ih => simp [resolveN, resolve_hit nb s k h, ih, List.replicate_succ]

/-- Claim C6 (single-flight creation): starting from a state with no entry
for a notebook identity, any number of serialized `resolve` invocations on
it — which by the spec's per-key exclusive section is what any concurrent
execution amounts to — all return the same kernel identity and perform
exactly one registry start. -/
theorem resolve_single_flight (n : Nat) (nb : String) (s : RoutingState)
    (h : s.table.lookup nb = none) :
    (resolveN (n + 1) nb s).1 = List.replicate (n + 1) s.nextId ∧
    (resolveN (n + 1) nb s).2.starts = s.starts + 1 := by
  have hres : resolve nb s =
      (s.nextId,
       RoutingState.mk ((nb, s.nextId) :: s.table) (s.nextId + 1) (s.starts + 1)) := by
    unfold resolve
    rw [h]
  have hlook :
      (RoutingState.mk ((nb, s.nextId) :: s.table) (s.nextId + 1)
        (s.starts + 1)).table.lookup nb = some s.nextId := by
    simp [List.lookup]
  constructor
  · simp [resolveN, hres, resolveN_hit n nb _ _ hlook, List.replicate_succ]
  · simp [resolveN, hres, resolveN_hit n nb _ _ hlook]

theorem resolve_single_flight_witness :
    (resolveN 3 "nbA" (RoutingState.mk [] 0 0)).1 = [0, 0, 0] ∧
    (resolveN 3 "nbA" (RoutingState.mk [] 0 0)).2.starts = 1 := by
  have h := resolve_single_flight 2 "nbA" (RoutingState.mk [] 0 0) rfl
  exact ⟨h.1.trans rfl, h.2.trans rfl⟩

/-- Claim C7 (spec invariant I5): closing a client connection never removes
a kernel from the live set, while stopping or restarting a kernel moves
every Bridge bound to the now-stale identity into the terminal `Stale`
state.  Proved for every state, which subsumes every reachable one. -/
theorem bridge_lifecycle (c k newK : Nat) (s : SystemState) :
    (close_connection c s).liveKernels = s.liveKernels ∧
    (∀ b ∈ (stop_kernel k s).bridges, b.kernel = k →
      b.state = BridgeState.Stale ∧ b.state.terminal = true) ∧
    (∀ b ∈ (restart_kernel k newK s).bridges, b.kernel = k →
      b.state = BridgeState.Stale ∧ b.state.terminal = true) := by
  refine ⟨rfl, ?_, ?_⟩ <;>
  · intro b hb hbk
    simp only [stop_kernel, restart_kernel, List.mem_map] at hb
    obtain ⟨b0, hb0, hmap⟩ := hb
    by_cases h0 : b0.kernel = k
    · rw [if_pos (beq_iff_eq.mpr h0)] at hmap
      rw [← hmap]
      exact ⟨rfl, rfl⟩
    · rw [if_neg (by simpa using h0)] at hmap
      subst hmap
      exact absurd hbk h0

/-- Every character of a segment accepted by the kernel identity pattern is
a hyphen or a word character. -/
theorem kernel_id_chars (cs : List Char) (h : kernel_id_match cs = true) :
    ∀ c ∈ cs, c = '-' ∨ wordChar c = true := by
  intro c hc
  rcases mem_splitOnChar '-' cs c hc with h45 | ⟨p, hp, hcp⟩
  · exact Or.inl h45
  · right
    unfold kernel_id_match at h
    simp only [Bool.and_eq_true, List.all_eq_true] at h
    have hpw := h.2 p hp
    unfold wordRun at hpw
    simp only [Bool.and_eq_true, List.all_eq_true] at hpw
    exact hpw.2 c hcp

/-- A kernel identity segment never contains a path separator. -/
theorem kernel_id_no_slash (cs : List Char) (h : kernel_id_match cs = true) :
    ∀ c ∈ cs, ¬ c = '/' := by
  intro c hc he
  rcases kernel_id_chars cs h c hc with h45 | hw
  · rw [he] at h45
    exact absurd h45 (by decide)
  · rw [he] at hw
    exact absurd hw (by decide)

/-- Segmentation of a path of the form `/kernels/<kid>/<tail>` where `kid`
matches the kernel identity pattern and `tail` is a single segment. -/
theorem segs_kernels_path (kid tail : List Char)
    (hk : kernel_id_match kid = true) (ht : ∀ c ∈ tail, ¬ c = '/') :
    splitOnChar '/' ("/kernels/".data ++ kid ++ '/' :: tail)
      = [[], "kernels".data, kid, tail] := by
  have h1 : "/kernels/".data ++ kid ++ '/' :: tail
      = [] ++ '/' :: ("kernels".data ++ '/' :: (kid ++ '/' :: tail)) := rfl
  rw [h1]
  rw [splitOnChar_append '/' [] _ (by simp)]
  rw [splitOnChar_append '/' "kernels".data _ (by decide)]
  rw [splitOnChar_append '/' kid _ (kernel_id_no_slash kid hk)]
  rw [splitOnChar_of_no_sep '/' tail ht]

theorem ne_of_splitOnChar_ne (p q : List Char)
    (h : splitOnChar '/' p ≠ splitOnChar '/' q) : p ≠ q :=
  fun e => h (by rw [e])

/-- Dispatch over a path of the form `/kernels/<kid>/<tail>` with a
pattern-conforming kernel id: the first five routes never match, and the
request lands on the action route, one of the stream routes, or no route at
all, according to `tail` alone. -/
theorem dispatch_kernels_sub (kid tail : List Char)
    (hk : kernel_id_match kid = true) (ht : ∀ c ∈ tail, ¬ c = '/') :
    dispatch ("/kernels/".data ++ kid ++ '/' :: tail)
      = if action_match tail then some Handler.KernelActionHandler
        else if tail == "iopub".data then
          some (Handler.ZMQStreamHandler "iopub".data)
        else if tail == "shell".data then
          some (Handler.ZMQStreamHandler "shell".data)
        else none := by
  have hsegs := segs_kernels_path kid tail hk ht
  have hroot : m_root ("/kernels/".data ++ kid ++ '/' :: tail) = false := by
    have hne := ne_of_splitOnChar_ne _ "/".data
      (by rw [hsegs]; rw [show splitOnChar '/' "/".data = [[], []] from rfl]; simp)
    simp [m_root, hne]
  have hnew : m_new ("/kernels/".data ++ kid ++ '/' :: tail) = false := by
    have hne := ne_of_splitOnChar_ne _ "/new".data
      (by rw [hsegs]; rw [show splitOnChar '/' "/new".data = [[], "new".data] from rfl]; simp)
    simp [m_new, hne]
  have hnn : m_named_notebook ("/kernels/".data ++ kid ++ '/' :: tail) = false := by
    unfold m_named_notebook
    rw [hsegs]
  have hmk : m_main_kernel ("/kernels/".data ++ kid ++ '/' :: tail) = false := by
    have hne := ne_of_splitOnChar_ne _ "/kernels".data
      (by rw [hsegs]; rw [show splitOnChar '/' "/kernels".data = [[], "kernels".data] from rfl]; simp)
    simp [m_main_kernel, hne]
  have hker : m_kernel ("/kernels/".data ++ kid ++ '/' :: tail) = false := by
    unfold m_kernel
    rw [hsegs]
  have hka : m_kernel_action ("/kernels/".data ++ kid ++ '/' :: tail)
      = action_match tail := by
    unfold m_kernel_action
    rw [hsegs]
    simp [hk]
  have hio : m_kernel_iopub ("/kernels/".data ++ kid ++ '/' :: tail)
      = (tail == "iopub".data) := by
    unfold m_kernel_iopub
    rw [hsegs]
    simp [hk]
  have hsh : m_kernel_shell ("/kernels/".data ++ kid ++ '/' :: tail)
      = (tail == "shell".data) := by
    unfold m_kernel_shell
    rw [hsegs]
    simp [hk]
  have hnbr : m_notebook_root ("/kernels/".data ++ kid ++ '/' :: tail) = false := by
    have hne := ne_of_splitOnChar_ne _ "/notebooks".data
      (by rw [hsegs]; rw [show splitOnChar '/' "/notebooks".data = [[], "notebooks".data] from rfl]; simp)
    simp [m_notebook_root, hne]
  have hnb : m_notebook ("/kernels/".data ++ kid ++ '/' :: tail) = false := by
    unfold m_notebook
    rw [hsegs]
  have hrst : m_rst ("/kernels/".data ++ kid ++ '/' :: tail) = false := by
    have hne := ne_of_splitOnChar_ne _ "/rstservice/render".data
      (by rw [hsegs];
          rw [show splitOnChar '/' "/rstservice/render".data
                = [[], "rstservice".data, "render".data] from rfl];
          simp)
    simp [m_rst, hne]
  unfold dispatch
  simp only [hroot, hnew, hnn, hmk, hker, hka, hio, hsh, hnbr, hnb, hrst,
    Bool.false_eq_true, if_false]

/-- Claim C2: a request path `/kernels/<id>/<action>` whose `<id>` matches
the kernel identity pattern and whose `<action>` is a single path segment is
dispatched to `KernelActionHandler` iff `<action>` is exactly `restart` or
exactly `interrupt`; every other action string misses that handler. -/
theorem kernel_action_route_iff (kid act : List Char)
    (hk : kernel_id_match kid = true) (ha : ∀ c ∈ act, ¬ c = '/') :
    dispatch ("/kernels/".data ++ kid ++ '/' :: act)
        = some Handler.KernelActionHandler
      ↔ (act = "restart".data ∨ act = "interrupt".data) := by
  rw [dispatch_kernels_sub kid act hk ha]
  by_cases hact : action_match act = true
  · have h2 : act = "restart".data ∨ act = "interrupt".data := by
      have h3 := hact
      unfold action_match at h3
      simpa using h3
    simp [hact, h2]
  · have hfalse : action_match act = false := by
      revert hact
      cases action_match act <;> simp
    have hnr : ¬ (act = "restart".data ∨ act = "interrupt".data) := by
      intro hor
      rcases hor with h | h <;> rw [h] at hfalse <;>
        exact absurd hfalse (by decide)
    simp only [hfalse, Bool.false_eq_true, if_false]
    constructor
    · intro hcontra
      split at hcontra <;> simp at hcontra
    · intro hor
      exact absurd hor hnr

theorem kernel_action_route_witness :
    dispatch ("/kernels/".data ++ "0cfff3b2-7656-4b35-8619-ecb6385d9b65".data
        ++ '/' :: "restart".data)
      = some Handler.KernelActionHandler :=
  (kernel_action_route_iff "0cfff3b2-7656-4b35-8619-ecb6385d9b65".data
    "restart".data (by decide) (by decide)).mpr (Or.inl rfl)

/-- Claim C3: for a pattern-conforming kernel id, the only single-segment
channel names routed to the stream-bridge handler are `iopub` — registered
with stream name `iopub`, the broadcast channel — and `shell` — registered
with stream name `shell`, the control channel; no other channel name
reaches a `ZMQStreamHandler`. -/
theorem stream_route_iff (kid chan sname : List Char)
    (hk : kernel_id_match kid = true) (hc : ∀ c ∈ chan, ¬ c = '/') :
    dispatch ("/kernels/".data ++ kid ++ '/' :: chan)
        = some (Handler.ZMQStreamHandler sname)
      ↔ ((chan = "iopub".data ∧ sname = "iopub".data) ∨
         (chan = "shell".data ∧ sname = "shell".data)) := by
  rw [dispatch_kernels_sub kid chan hk hc]
  by_cases hact : action_match chan = true
  · have h2 : chan = "restart".data ∨ chan = "interrupt".data := by
      have h3 := hact
      unfold action_match at h3
      simpa using h3
    rcases h2 with h | h <;> subst h <;> simp
  · have hfalse : action_match chan = false := by
      revert hact
      cases action_match chan <;> simp
    simp only [hfalse, Bool.false_eq_true, if_false]
    by_cases hio : chan = "iopub".data
    · subst hio
      simp [eq_comm]
    · by_cases hsh : chan = "shell".data
      · subst hsh
        simp [eq_comm]
      · simp [hio, hsh]

theorem stream_route_witness :
    dispatch ("/kernels/".data ++ "0cfff3b2-7656-4b35-8619-ecb6385d9b65".data
        ++ '/' :: "iopub".data)
      = some (Handler.ZMQStreamHandler "iopub".data) :=
  (stream_route_iff "0cfff3b2-7656-4b35-8619-ecb6385d9b65".data
    "iopub".data "iopub".data (by decide) (by decide)).mpr
    (Or.inl ⟨rfl, rfl⟩)

/-- Claim C4 counterexample: `a-b-c-d-e` is not a UUID-shaped string, yet
the kernel identity pattern accepts it and the router hands
`/kernels/a-b-c-d-e` to the per-kernel handler. -/
theorem kernel_id_pattern_not_uuid_only :
    kernel_id_match "a-b-c-d-e".data = true ∧
    uuidShaped "a-b-c-d-e".data = false ∧
    dispatch "/kernels/a-b-c-d-e".data = some Handler.KernelHandler := by
  decide

theorem hexDigit_wordChar (c : Char) (h : hexDigit c = true) :
    wordChar c = true := by
  simp only [hexDigit, Bool.or_eq_true, Bool.and_eq_true,
    decide_eq_true_eq] at h
  simp only [wordChar, Bool.or_eq_true, Bool.and_eq_true, decide_eq_true_eq]
  rcases h with (⟨h1, h2⟩ | ⟨h1, h2⟩) | ⟨h1, h2⟩
  · exact Or.inl (Or.inr ⟨h1, h2⟩)
  · exact Or.inl (Or.inl (Or.inl ⟨h1, le_trans h2 (by decide)⟩))
  · exact Or.inl (Or.inl (Or.inr ⟨h1, le_trans h2 (by decide)⟩))

/-- A nonempty run of hexadecimal digits is a word run. -/
theorem wordRun_of_hex (q : List Char) (hq : q.length ≠ 0)
    (hqhex : ∀ x ∈ q, hexDigit x = true) : wordRun q = true := by
  unfold wordRun
  cases q with
  | nil => exact absurd rfl hq
  | cons y ys =>
    simp only [List.isEmpty_cons, Bool.not_false, Bool.true_and,
      List.all_eq_true]
    exact fun x hx => hexDigit_wordChar x (hqhex x hx)

/-- Claim C4 (as amended): the kernel identity pattern accepts every
standard UUID string, but it is strictly coarser than UUID-shaped-ness: it
accepts exactly the strings made of five nonempty hyphen-separated runs of
word characters, UUID or not (see the counterexample above). -/
theorem uuid_matches_kernel_id (cs : List Char) (h : uuidShaped cs = true) :
    kernel_id_match cs = true := by
  unfold uuidShaped at h
  unfold kernel_id_match
  rcases hsp : splitOnChar '-' cs with
    _ | ⟨a, _ | ⟨b, _ | ⟨c, _ | ⟨d, _ | ⟨e, _ | ⟨f, fs⟩⟩⟩⟩⟩⟩ <;>
    rw [hsp] at h
  · simp at h
  · simp at h
  · simp at h
  · simp at h
  · simp at h
  · simp only [Bool.and_eq_true, beq_iff_eq, List.all_append,
      List.all_eq_true] at h
    obtain ⟨⟨⟨⟨⟨ha, hb⟩, hc⟩, hd⟩, he⟩,
      ⟨⟨⟨hxa, hxb⟩, hxc⟩, hxd⟩, hxe⟩ := h
    rw [Bool.and_eq_true]
    refine ⟨by simp, ?_⟩
    rw [List.all_eq_true]
    intro p hp
    simp only [List.mem_cons, List.not_mem_nil, or_false] at hp
    rcases hp with hpe | hpe | hpe | hpe | hpe <;> rw [hpe]
    · exact wordRun_of_hex a (by rw [ha]; decide) hxa
    · exact wordRun_of_hex b (by rw [hb]; decide) hxb
    · exact wordRun_of_hex c (by rw [hc]; decide) hxc
    · exact wordRun_of_hex d (by rw [hd]; decide) hxd
    · exact wordRun_of_hex e (by rw [he]; decide) hxe
  · simp at h

theorem m_main_kernel_segs (p : List Char) (h : m_main_kernel p = true) :
    splitOnChar '/' p = [[], "kernels".data] := by
  have hp : p = "/kernels".data := by simpa [m_main_kernel] using h
  rw [hp]
  rfl

theorem m_kernel_segs (p : List Char) (h : m_kernel p = true) :
    ∃ kid, splitOnChar '/' p = [[], "kernels".data, kid] := by
  unfold m_kernel at h
  split at h
  · next seg kid heq =>
      simp only [Bool.and_eq_true, beq_iff_eq] at h
      exact ⟨kid, by rw [heq, h.1]⟩
  · simp at h

theorem m_kernel_action_segs (p : List Char) (h : m_kernel_action p = true) :
    ∃ kid act, splitOnChar '/' p = [[], "kernels".data, kid, act] ∧
      action_match act = true := by
  unfold m_kernel_action at h
  split at h
  · next seg kid act heq =>
      simp only [Bool.and_eq_true, beq_iff_eq] at h
      exact ⟨kid, act, by rw [heq, h.1.1], h.2⟩
  · simp at h

theorem m_kernel_iopub_segs (p : List Char) (h : m_kernel_iopub p = true) :
    ∃ kid, splitOnChar '/' p = [[], "kernels".data, kid, "iopub".data] := by
  unfold m_kernel_iopub at h
  split at h
  · next seg kid chan heq =>
      simp only [Bool.and_eq_true, beq_iff_eq] at h
      exact ⟨kid, by rw [heq, h.1.1, h.2]⟩
  · simp at h

theorem m_kernel_shell_segs (p : List Char) (h : m_kernel_shell p = true) :
    ∃ kid, splitOnChar '/' p = [[], "kernels".data, kid, "shell".data] := by
  unfold m_kernel_shell at h
  split at h
  · next seg kid chan heq =>
      simp only [Bool.and_eq_true, beq_iff_eq] at h
      exact ⟨kid, by rw [heq, h.1.1, h.2]⟩
  · simp at h

/-- Claim C5: dispatch over the kernel-family routes is unambiguous — for
every request path at most one of the five kernel routes (`/kernels`, the
per-kernel path, the action path, and the two channel-stream paths)
matches, so the router's first-match rule hides no kernel route behind
another. -/
theorem kernel_routes_unambiguous (p : List Char) :
    (m_main_kernel p).toNat + (m_kernel p).toNat + (m_kernel_action p).toNat +
      (m_kernel_iopub p).toNat + (m_kernel_shell p).toNat ≤ 1 := by
  cases hA : m_main_kernel p with
  | true =>
    have hp : p = "/kernels".data := by simpa [m_main_kernel] using hA
    subst hp
    decide
  | false =>
  cases hB : m_kernel p with
  | true =>
    obtain ⟨kid, hseg⟩ := m_kernel_segs p hB
    have hC : m_kernel_action p = false := by
      cases hC : m_kernel_action p
      · rfl
      · obtain ⟨kid2, act2, hseg2, _⟩ := m_kernel_action_segs p hC
        rw [hseg] at hseg2
        simp at hseg2
    have hD : m_kernel_iopub p = false := by
      cases hD : m_kernel_iopub p
      · rfl
      · obtain ⟨kid2, hseg2⟩ := m_kernel_iopub_segs p hD
        rw [hseg] at hseg2
        simp at hseg2
    have hE : m_kernel_shell p = false := by
      cases hE : m_kernel_shell p
      · rfl
      · obtain ⟨kid2, hseg2⟩ := m_kernel_shell_segs p hE
        rw [hseg] at hseg2
        simp at hseg2
    rw [hC, hD, hE]
    decide
  | false =>
  cases hC : m_kernel_action p with
  | true =>
    obtain ⟨kid, act, hseg, hact⟩ := m_kernel_action_segs p hC
    have hD : m_kernel_iopub p = false := by
      cases hD : m_kernel_iopub p
      · rfl
      · obtain ⟨kid2, hseg2⟩ := m_kernel_iopub_segs p hD
        rw [hseg] at hseg2
        simp only [List.cons.injEq, and_true, true_and] at hseg2
        rw [hseg2.2] at hact
        exact absurd hact (by decide)
    have hE : m_kernel_shell p = false := by
      cases hE : m_kernel_shell p
      · rfl
      · obtain ⟨kid2, hseg2⟩ := m_kernel_shell_segs p hE
        rw [hseg] at hseg2
        simp only [List.cons.injEq, and_true, true_and] at hseg2
        rw [hseg2.2] at hact
        exact absurd hact (by decide)
    rw [hD, hE]
    decide
  | false =>
  cases hD : m_kernel_iopub p with
  | true =>
    obtain ⟨kid, hseg⟩ := m_kernel_iopub_segs p hD
    have hE : m_kernel_shell p = false := by
      cases hE : m_kernel_shell p
      · rfl
      · obtain ⟨kid2, hseg2⟩ := m_kernel_shell_segs p hE
        rw [hseg] at hseg2
        simp at hseg2
    rw [hE]
    decide
  | false =>
  cases hE : m_kernel_shell p <;> decide

theorem uuid_matches_kernel_id_witness :
    uuidShaped "0cfff3b2-7656-4b35-8619-ecb6385d9b65".data = true ∧
    kernel_id_match "0cfff3b2-7656-4b35-8619-ecb6385d9b65".data = true :=
  ⟨by decide, uuid_matches_kernel_id _ (by decide)⟩

theorem bridge_lifecycle_witness :
    (close_connection 7
        (SystemState.mk [1] [Bridge.mk 7 1 BridgeState.Active])).liveKernels
      = [1] ∧
    (Bridge.mk 7 1 BridgeState.Stale).state = BridgeState.Stale := by
  have h := bridge_lifecycle 7 1 2
    (SystemState.mk [1] [Bridge.mk 7 1 BridgeState.Active])
  exact ⟨h.1, (h.2.1 (Bridge.mk 7 1 BridgeState.Stale) (by decide) rfl).1⟩

end NotebookApp
